import Mathlib

/-!
Verification of the product-synchronization core of the Products_API
repository: external-provider normalization (`app/services/external_providers.py`),
reconciliation against storage (`app/services/sync.py`), and the job-control
surface (`app/services/product_sync.py`, `app/routers/sync.py`).

Python floats are modelled as rationals, JSON records as Lean structures, and
database / task-queue effects as explicit state passing.
-/

namespace ProductsAPI

/-- A JSON value sitting under one key of a raw "dimensions" dict:
either JSON null or a number (modelled as a rational). -/
inductive JVal where
  | vnull
  | vnum (q : ℚ)
deriving DecidableEq, Repr

/-- A raw "dimensions" dict as received from the wire: each of the three keys
may be absent (`none`) or present with a null-or-numeric value. -/
structure DimsDict where
  width : Option JVal
  height : Option JVal
  depth : Option JVal
deriving DecidableEq, Repr

/-- Embeds the pydantic schema `DummyJSONDimensions` of
`app/schemas/external.py`: three `Optional[float]` fields defaulting to None. -/
structure DummyJSONDimensions where
  width : Option ℚ
  height : Option ℚ
  depth : Option ℚ
deriving DecidableEq, Repr

/-- The value of the "dimensions" key inside a raw product record
(`Dict[str, Any]`): the key may be absent, null, a JSON dict, or (already
validated) a `DummyJSONDimensions` object. -/
inductive DimsField where
  | absent
  | null
  | dict (d : DimsDict)
  | obj (d : DummyJSONDimensions)
deriving DecidableEq, Repr

/-- A raw product record as passed to `DummyJSONProvider.normalize_product`.
The fields required by the pydantic schema `DummyJSONProduct` (`id`, `title`,
`price`, `description`) are present and well-typed, so `DummyJSONProduct(**raw_product)`
validation succeeds; the optional `dimensions` key is modelled explicitly. -/
structure RawProduct where
  id : Int
  title : String
  price : ℚ
  description : String
  dimensions : DimsField
deriving DecidableEq, Repr

/-- Embeds the pydantic schema `NormalizedProduct` of `app/schemas/external.py`:
`height`/`length`/`depth` are `Optional[float]`. -/
structure NormalizedProduct where
  external_id : Int
  title : String
  price : ℚ
  description : Option String
  height : Option ℚ
  length : Option ℚ
  depth : Option ℚ
  source_api : String
deriving DecidableEq, Repr

/-- Python `dimensions.get(key, 0.0)` on a raw dict entry: an absent key yields
the default 0.0; a key present with null yields Python None; a numeric value
yields itself. -/
def dictGet : Option JVal → Option ℚ
  | none => some 0
  | some JVal.vnull => none
  | some (JVal.vnum q) => some q

/-- Python `dimensions.height or 0.0` on a validated `DummyJSONDimensions`
field: None falls through to 0.0; a numeric value is kept (the falsy value 0.0
also collapses to the default 0.0, which is the same value). -/
def objGet : Option ℚ → Option ℚ
  | none => some 0
  | some q => some q

/-- The dimensions handling of `DummyJSONProvider.normalize_product`
(`app/services/external_providers.py` lines 58-68), returning
(height, width, depth) or the runtime error the code raises.

`raw_product.get("dimensions", \x7b\x7d)` turns an absent key into the empty
dict, which flows into the `isinstance(dimensions, dict)` branch where every
per-key `.get` yields the default 0.0. A null value is neither a dict nor an
object carrying the accessed attributes, so `dimensions.height` in the `else`
branch raises AttributeError. -/
def normalizeDims : DimsField → Except String (Option ℚ × Option ℚ × Option ℚ)
  | DimsField.absent => Except.ok (some 0, some 0, some 0)
  | DimsField.null => Except.error "AttributeError: NoneType object has no attribute height"
  | DimsField.dict d => Except.ok (dictGet d.height, dictGet d.width, dictGet d.depth)
  | DimsField.obj o => Except.ok (objGet o.height, objGet o.width, objGet o.depth)

/-- Embeds `DummyJSONProvider.normalize_product`: validates the record, reads
the dimensions, and builds the `NormalizedProduct` — note the field-name
crossover `length := width` taken verbatim from the constructor call
`NormalizedProduct(..., height=height, length=width, depth=depth, ...)`. -/
def normalize_product (raw : RawProduct) : Except String NormalizedProduct :=
  match normalizeDims raw.dimensions with
  | Except.error e => Except.error e
  | Except.ok (h, w, d) =>
      Except.ok
        { external_id := raw.id
          title := raw.title
          price := raw.price
          description := some raw.description
          height := h
          length := w
          depth := d
          source_api := "dummyjson" }

/-- Helper for `parseDims`: a raw dict entry as seen by pydantic. -/
def dictOpt : Option JVal → Option ℚ
  | none => none
  | some JVal.vnull => none
  | some (JVal.vnum q) => some q

/-- Pydantic validation of the "dimensions" value into
`Optional[DummyJSONDimensions]` as performed by `DummyJSONResponse(**response.json())`
inside `fetch_products`: absent and null both become None; a dict is parsed
field by field (null and absent keys both become None). -/
def parseDims : DimsField → Option DummyJSONDimensions
  | DimsField.absent => none
  | DimsField.null => none
  | DimsField.dict d => some ⟨dictOpt d.width, dictOpt d.height, dictOpt d.depth⟩
  | DimsField.obj o => some o

/-- `model_dump()` of an `Optional[float]` field: None is dumped as an explicit
null entry, a number as itself. -/
def dumpF : Option ℚ → Option JVal
  | none => some JVal.vnull
  | some q => some (JVal.vnum q)

/-- `model_dump()` of the `dimensions` field of a validated `DummyJSONProduct`:
a None field is dumped as an explicit `"dimensions": null` entry (the key is
always present in the dump), an object as a dict with all three keys. -/
def dumpDims : Option DummyJSONDimensions → DimsField
  | none => DimsField.null
  | some o => DimsField.dict ⟨dumpF o.width, dumpF o.height, dumpF o.depth⟩

/-- The effect of `fetch_products` on one record: pydantic validation into
`DummyJSONProduct` followed by `product.model_dump()`
(`app/services/external_providers.py` lines 45-53). -/
def modelDumpRoundtrip (raw : RawProduct) : RawProduct :=
  { raw with dimensions := dumpDims (parseDims raw.dimensions) }

/-- Embeds `ExternalAPIProvider.fetch_and_normalize_products`: normalize each
fetched (validated and dumped) record in order; the list comprehension
propagates the first raised error, failing the whole batch. -/
def fetch_and_normalize_products (fetched : List RawProduct) :
    Except String (List NormalizedProduct) :=
  (fetched.map modelDumpRoundtrip).mapM normalize_product

/-- Embeds the `Product` ORM model of `app/models/models.py`: `external_id` is
a nullable unique column, dimensions are nullable numerics, and `owner_id` is
declared `ForeignKey("users.id"), nullable=False`. -/
structure PersistedProduct where
  external_id : Option Int
  title : String
  price : ℚ
  description : Option String
  height : Option ℚ
  length : Option ℚ
  depth : Option ℚ
  owner_id : Option Int
deriving DecidableEq, Repr

/-- The in-place field overwrite of `sync_products_from_external` for an
existing row (`app/services/sync.py` lines 41-47): title, price, description
and the three dimensions are replaced; `external_id` and `owner_id` are not
touched. -/
def updateFields (q : PersistedProduct) (p : NormalizedProduct) : PersistedProduct :=
  { q with
    title := p.title
    price := p.price
    description := p.description
    height := p.height
    length := p.length
    depth := p.depth }

/-- The `Product(...)` constructor call of `sync_products_from_external`
(lines 49-58): every field of the normalized product is copied, and no
`owner_id` is supplied, so the column is left at its default NULL. -/
def newProduct (p : NormalizedProduct) : PersistedProduct :=
  { external_id := some p.external_id
    title := p.title
    price := p.price
    description := p.description
    height := p.height
    length := p.length
    depth := p.depth
    owner_id := none }

/-- Session state during the reconciliation loop: pending table contents plus
the two counters. -/
structure LoopState where
  db : List PersistedProduct
  added : Nat
  updated : Nat
deriving DecidableEq, Repr

/-- One iteration of the loop of `sync_products_from_external`: the
`select(Product).where(Product.external_id == ...)` lookup followed by
`scalar_one_or_none` (which raises when several rows match), then either the
in-place update or a `db.add` of a fresh row. SQL equality on a NULL
`external_id` never matches. -/
def processOne (st : LoopState) (p : NormalizedProduct) : Except String LoopState :=
  match st.db.filter (fun q => q.external_id == some p.external_id) with
  | [] =>
      Except.ok { db := st.db ++ [newProduct p], added := st.added + 1, updated := st.updated }
  | [_] =>
      Except.ok
        { db := st.db.map (fun q =>
            if q.external_id == some p.external_id then updateFields q p else q)
          added := st.added
          updated := st.updated + 1 }
  | _ => Except.error "MultipleResultsFound"

/-- The `for product_data in normalized_products` loop of
`sync_products_from_external`, threading the session state. -/
def reconcileLoop (st : LoopState) : List NormalizedProduct → Except String LoopState
  | [] => Except.ok st
  | p :: rest =>
      match processOne st p with
      | Except.error e => Except.error e
      | Except.ok st2 => reconcileLoop st2 rest

/-- No two rows share a non-null `external_id` (the unique index of the model). -/
def nonNullIdsNodup : List PersistedProduct → Bool
  | [] => true
  | q :: rest =>
      (match q.external_id with
       | none => true
       | some i => !(rest.any (fun r => r.external_id == some i))) && nonNullIdsNodup rest

/-- Column constraints of the `products` table checked by the database at
commit time: `owner_id` is NOT NULL, and the unique index on `external_id`
admits at most one row per non-null value. -/
def commitOk (db : List PersistedProduct) : Bool :=
  db.all (fun q => q.owner_id.isSome) && nonNullIdsNodup db

/-- The result dict of `sync_products_from_external`: either the success
payload with its counters or the error payload, which carries only the message. -/
inductive SyncResult where
  | success (added updated total_processed : Nat)
  | error (msg : String)
deriving DecidableEq, Repr

/-- The `added` count carried by a sync result; the error payload carries no
counts, so it reports zero. -/
def SyncResult.reportedAdded : SyncResult → Nat
  | SyncResult.success a _ _ => a
  | SyncResult.error _ => 0

/-- The `updated` count carried by a sync result; the error payload carries no
counts, so it reports zero. -/
def SyncResult.reportedUpdated : SyncResult → Nat
  | SyncResult.success _ u _ => u
  | SyncResult.error _ => 0

/-- Embeds `sync_products_from_external` (`app/services/sync.py`) from the
point where the normalized batch is in hand: run the reconciliation loop in
one session, then `await db.commit()` once at the end. Any exception — a
lookup error, an injected storage failure (`storageFail`, standing for the
claim's arbitrary storage fault at commit), or a constraint violation — is
caught by the surrounding `try`, the session closes without committing, the
transaction rolls back, and the error dict is returned: the persisted state
stays `db0`. -/
def sync_products_from_external (db0 : List PersistedProduct)
    (batch : List NormalizedProduct) (storageFail : Bool) :
    SyncResult × List PersistedProduct :=
  match reconcileLoop { db := db0, added := 0, updated := 0 } batch with
  | Except.error e => (SyncResult.error e, db0)
  | Except.ok st =>
      if storageFail then
        (SyncResult.error "StorageError: commit failed", db0)
      else if commitOk st.db then
        (SyncResult.success st.added st.updated batch.length, st.db)
      else
        (SyncResult.error "IntegrityError: null value in column owner_id violates not-null constraint", db0)

/-- The defaults of `Settings` in `app/core/config.py` that the sync path
reads. -/
structure Settings where
  external_api_provider : String
  external_api_url : String
deriving DecidableEq, Repr

/-- The module-level `settings = Settings()` instance with its declared
defaults. -/
def settings : Settings :=
  { external_api_provider := "dummyjson"
    external_api_url := "https://dummyjson.com/products" }

/-- A configured provider instance; the registry of
`app/services/external_providers.py` holds the single entry
`"dummyjson": DummyJSONProvider`. -/
inductive Provider where
  | dummyjson (api_url : String)
deriving DecidableEq, Repr

/-- The `name` property of the provider. -/
def Provider.name : Provider → String
  | Provider.dummyjson _ => "dummyjson"

/-- The keys of the static `providers` dict inside `get_provider`. -/
def providerKeys : List String := ["dummyjson"]

/-- An ASCII single-quote character, used when rendering Python list reprs. -/
def quoteChar : String := String.singleton (Char.ofNat 39)

/-- Python `str(list(providers.keys()))` for the static registry. -/
def availableKeysRepr : String :=
  "[" ++ quoteChar ++ "dummyjson" ++ quoteChar ++ "]"

/-- Embeds the factory `get_provider` (`app/services/external_providers.py`
lines 83-110): a None key falls back to `settings.external_api_provider`; a
key outside the registry raises `ValueError` with a message ending in the list
of valid keys; otherwise the registered class is instantiated with the
configured URL. -/
def get_provider (provider_type : Option String) : Except String Provider :=
  let pt := provider_type.getD settings.external_api_provider
  if pt ∈ providerKeys then
    Except.ok (Provider.dummyjson settings.external_api_url)
  else
    Except.error ("Unknown provider type: " ++ pt ++ ". Available: " ++ availableKeysRepr)

/-- A Celery `send_task` dispatch: task name and positional arguments. The
sync trigger dispatches `"app.tasks.sync_products"` with no arguments. -/
structure TaskInvocation where
  name : String
  args : List String
deriving DecidableEq, Repr

/-- The dict returned by `ProductSyncService.start_full_sync`: either the
started payload or the error payload. -/
inductive TriggerResult where
  | started (task_id provider_type message : String)
  | error_result (error : String)
deriving DecidableEq, Repr

/-- Embeds `ProductSyncService.start_full_sync` (`app/services/product_sync.py`
lines 12-43). The provider key is only validated (and its name echoed); on
`ValueError` the error dict is returned before any task is sent. On success
`celery_app.send_task("app.tasks.sync_products")` is called with no arguments.
`task_id` stands for the identifier Celery mints for the dispatched task. The
second component collects the dispatched task invocations. -/
def start_full_sync (task_id : String) (provider_type : Option String) :
    TriggerResult × List TaskInvocation :=
  match get_provider provider_type with
  | Except.error e => (TriggerResult.error_result ("Invalid provider type: " ++ e), [])
  | Except.ok p =>
      (TriggerResult.started task_id p.name "Product synchronization started",
       [{ name := "app.tasks.sync_products", args := [] }])

/-- The provider resolution performed when the dispatched task actually runs:
`app.tasks.sync_products` calls `sync_products_from_external`, whose first
step is `provider = get_external_provider()` with no argument
(`app/services/sync.py` line 24), so the configured default is used. -/
def taskProviderResolution : Except String Provider := get_provider none

/-- A task state as reported by the Celery result backend. Celery reports
unknown task identifiers as PENDING, indistinguishable from a task that has
not started yet. -/
inductive CeleryState where
  | PENDING
  | PROGRESS (current total : Nat)
  | SUCCESS (result : String)
  | FAILURE (error : String)
  | REVOKED
deriving DecidableEq, Repr

/-- The result-backend registry: known task identifiers and their states. -/
def backendState (reg : List (String × CeleryState)) (task_id : String) : CeleryState :=
  (reg.lookup task_id).getD CeleryState.PENDING

/-- The dict returned by `ProductSyncService.get_sync_status`, one constructor
per branch of the source. -/
inductive StatusResult where
  | pending (message : String)
  | in_progress (message : String) (current total : Nat)
  | completed (result : String)
  | failed (error : String)
  | other (status message : String)
deriving DecidableEq, Repr

/-- Embeds `ProductSyncService.get_sync_status` (`app/services/product_sync.py`
lines 45-91): `AsyncResult(task_id)` is queried and each state mapped to its
payload; there is no existence check, and an unknown identifier surfaces as
the PENDING branch. -/
def get_sync_status (reg : List (String × CeleryState)) (task_id : String) : StatusResult :=
  match backendState reg task_id with
  | CeleryState.PENDING => StatusResult.pending "Task is waiting to be processed"
  | CeleryState.PROGRESS c t => StatusResult.in_progress "Task is currently running" c t
  | CeleryState.SUCCESS r => StatusResult.completed r
  | CeleryState.FAILURE e => StatusResult.failed e
  | CeleryState.REVOKED => StatusResult.other "revoked" "Task state: REVOKED"

/-- Embeds the router `get_sync_status` of `app/routers/sync.py` lines 48-65:
only a service result whose status is "error" (the exception branch, absent
from this model of a healthy backend) is turned into an HTTP 404; every other
payload is returned as-is. -/
def route_get_sync_status (reg : List (String × CeleryState)) (task_id : String) :
    Except Nat StatusResult :=
  Except.ok (get_sync_status reg task_id)

/-- The dict returned by `ProductSyncService.cancel_sync`. -/
inductive CancelOutcome where
  | accepted (task_id message : String)
  | error_result (error : String)
deriving DecidableEq, Repr

/-- Whether a cancel outcome is the error payload. -/
def CancelOutcome.isError : CancelOutcome → Bool
  | CancelOutcome.accepted _ _ => false
  | CancelOutcome.error_result _ => true

/-- Effect of `celery_app.control.revoke(task_id, terminate=True)` on one task
state: a task not yet finished is revoked (terminated); a task already in a
terminal state is left unchanged (the revoke is a no-op for it). -/
def revokeState : CeleryState → CeleryState
  | CeleryState.PENDING => CeleryState.REVOKED
  | CeleryState.PROGRESS _ _ => CeleryState.REVOKED
  | s => s

/-- Embeds `ProductSyncService.cancel_sync` (`app/services/product_sync.py`
lines 93-117): it revokes unconditionally — no lookup of the task and no check
of its state — and always returns the accepted payload with status
"cancelled". The first component is the backend registry after the revoke. -/
def cancel_sync (reg : List (String × CeleryState)) (task_id : String) :
    List (String × CeleryState) × CancelOutcome :=
  (reg.map (fun e => if e.1 == task_id then (e.1, revokeState e.2) else e),
   CancelOutcome.accepted task_id "Task cancellation requested")

/-- The worker task lists returned by `celery_app.control.inspect()`,
flattened across workers. -/
structure TaskRegistry where
  active : List String
  scheduled : List String
  reserved : List String
deriving DecidableEq, Repr

/-- The dict returned by `ProductSyncService.get_sync_history`. -/
structure HistoryResult where
  active_tasks : List String
  scheduled_tasks : List String
  reserved_tasks : List String
  message : String
deriving DecidableEq, Repr

/-- Embeds `ProductSyncService.get_sync_history` (`app/services/product_sync.py`
lines 119-152): the three inspect queries are returned verbatim; `limit` is
used only inside the message string and never applied to the lists. -/
def get_sync_history (limit : Nat) (reg : TaskRegistry) : HistoryResult :=
  { active_tasks := reg.active
    scheduled_tasks := reg.scheduled
    reserved_tasks := reg.reserved
    message := "Retrieved task history (limit: " ++ toString limit ++ ")" }

/-- Total number of job entries carried by a history result. -/
def HistoryResult.entryCount (h : HistoryResult) : Nat :=
  h.active_tasks.length + h.scheduled_tasks.length + h.reserved_tasks.length

/-- Whether a provider key resolves against the registry (the `try` around
`get_external_provider(provider_type)` in `start_full_sync` succeeds). -/
def resolvesProvider (k : Option String) : Bool :=
  match get_provider k with
  | Except.ok _ => true
  | Except.error _ => false

/-- Whether a Celery task state is the SUCCESS terminal state. -/
def CeleryState.isSuccess : CeleryState → Bool
  | CeleryState.SUCCESS _ => true
  | _ => false

/-- A raw record carrying the spec example dimensions (width 5, height 3,
depth 2). -/
def rawFullDims : RawProduct :=
  { id := 1
    title := "Essence Mascara Lash Princess"
    price := 999 / 100
    description := "Popular mascara"
    dimensions := DimsField.dict
      ⟨some (JVal.vnum 5), some (JVal.vnum 3), some (JVal.vnum 2)⟩ }

/-- A raw record whose "dimensions" key is present with value null. -/
def rawNullDims : RawProduct :=
  { id := 1
    title := "Essence Mascara Lash Princess"
    price := 999 / 100
    description := "Popular mascara"
    dimensions := DimsField.null }

/-- A raw record with no "dimensions" key at all. -/
def rawNoDims : RawProduct :=
  { id := 2
    title := "Eyeshadow Palette with Mirror"
    price := 1999 / 100
    description := "Versatile palette"
    dimensions := DimsField.absent }

/-- A normalized product whose external identifier matches no persisted row of
an empty table. -/
def sampleProduct : NormalizedProduct :=
  { external_id := 1
    title := "Essence Mascara Lash Princess"
    price := 999 / 100
    description := some "Popular mascara"
    height := some 3
    length := some 5
    depth := some 2
    source_api := "dummyjson" }

/-- A result-backend registry holding a single task in the terminal SUCCESS
state. -/
def regSucceeded : List (String × CeleryState) :=
  [("t1", CeleryState.SUCCESS "done")]

/-- C1: for every raw product record whose dimensions object carries numeric
width, height and depth values, `normalize_product` succeeds and the produced
`NormalizedProduct` has `length` equal to the source `width`, `height` equal
to the source `height`, and `depth` equal to the source `depth`. -/
theorem normalize_dimension_crossover (raw : RawProduct) (w h dp : ℚ)
    (hdims : raw.dimensions = DimsField.dict
      ⟨some (JVal.vnum w), some (JVal.vnum h), some (JVal.vnum dp)⟩) :
    (normalize_product raw).map NormalizedProduct.length = Except.ok (some w) ∧
    (normalize_product raw).map NormalizedProduct.height = Except.ok (some h) ∧
    (normalize_product raw).map NormalizedProduct.depth = Except.ok (some dp) := by
  obtain ⟨i, t, pr, ds, dims⟩ := raw
  dsimp only at hdims
  subst hdims
  exact ⟨rfl, rfl, rfl⟩

/-- Witness for C1 at the spec example dimensions (width 5, height 3, depth 2). -/
theorem normalize_dimension_crossover_witness :
    rawFullDims.dimensions = DimsField.dict
      ⟨some (JVal.vnum 5), some (JVal.vnum 3), some (JVal.vnum 2)⟩ ∧
    ((normalize_product rawFullDims).map NormalizedProduct.length = Except.ok (some 5) ∧
     (normalize_product rawFullDims).map NormalizedProduct.height = Except.ok (some 3) ∧
     (normalize_product rawFullDims).map NormalizedProduct.depth = Except.ok (some 2)) :=
  ⟨rfl, normalize_dimension_crossover rawFullDims 5 3 2 rfl⟩

/-- C9 (code bug): a record whose "dimensions" value is null makes
`normalize_product` raise AttributeError instead of defaulting the three
dimensions to zero, and through `fetch_and_normalize_products` even a record
with no "dimensions" key crashes the batch, because `model_dump()` re-inserts
the key with value None; only the direct call on a record with the key absent
yields the claimed zeros. -/
theorem normalize_missing_dims_bug :
    normalize_product rawNullDims =
      Except.error "AttributeError: NoneType object has no attribute height" ∧
    fetch_and_normalize_products [rawNoDims] =
      Except.error "AttributeError: NoneType object has no attribute height" ∧
    normalize_product rawNoDims = Except.ok
      { external_id := 2
        title := "Eyeshadow Palette with Mirror"
        price := 1999 / 100
        description := some "Versatile palette"
        height := some 0
        length := some 0
        depth := some 0
        source_api := "dummyjson" } :=
  ⟨rfl, rfl, rfl⟩

/-- C2 (code bug): reconciling the batch `[sampleProduct]` against an empty
table twice is not idempotent in the claimed sense — both runs abort at commit
with the NOT NULL violation on `owner_id` that the creation path triggers, so
the second run reports no `updated` count (the error payload carries zero
counts) although the batch has length 1. -/
theorem sync_twice_fails_on_new_products :
    sync_products_from_external [] [sampleProduct] false =
      (SyncResult.error "IntegrityError: null value in column owner_id violates not-null constraint", []) ∧
    (sync_products_from_external
        (sync_products_from_external [] [sampleProduct] false).2
        [sampleProduct] false).1.reportedUpdated = 0 ∧
    (sync_products_from_external
        (sync_products_from_external [] [sampleProduct] false).2
        [sampleProduct] false).1.reportedAdded = 0 ∧
    [sampleProduct].length = 1 :=
  ⟨rfl, rfl, rfl, rfl⟩

/-- C3 (code bug): for a normalized product matching no persisted row, the
creation path of `sync_products_from_external` builds the new row with
`owner_id` left NULL — no system or service account is substituted — so the
commit violates the NOT NULL constraint of the `products` table and the sync
fails. -/
theorem sync_created_product_lacks_owner :
    (newProduct sampleProduct).owner_id = none ∧
    sync_products_from_external [] [sampleProduct] false =
      (SyncResult.error "IntegrityError: null value in column owner_id violates not-null constraint", []) :=
  ⟨rfl, rfl⟩

/-- C4: whenever a run of `sync_products_from_external` ends in the error
payload — a lookup failure, a constraint violation at commit, or an injected
storage fault — the persisted state is exactly the state before the call and
the reported added and updated counts are zero: the single end-of-batch commit
makes the operation all-or-nothing. -/
theorem sync_failure_is_atomic (db0 : List PersistedProduct)
    (batch : List NormalizedProduct) (storageFail : Bool) (msg : String)
    (h : (sync_products_from_external db0 batch storageFail).1 = SyncResult.error msg) :
    (sync_products_from_external db0 batch storageFail).2 = db0 ∧
    (sync_products_from_external db0 batch storageFail).1.reportedAdded = 0 ∧
    (sync_products_from_external db0 batch storageFail).1.reportedUpdated = 0 := by
  unfold sync_products_from_external at h ⊢
  cases hr : reconcileLoop { db := db0, added := 0, updated := 0 } batch with
  | error e =>
      exact ⟨rfl, rfl, rfl⟩
  | ok st =>
      rw [hr] at h
      cases storageFail with
      | true =>
          exact ⟨rfl, rfl, rfl⟩
      | false =>
          by_cases hc : commitOk st.db = true
          · simp only [Bool.false_eq_true, if_false, if_pos hc] at h
            exact SyncResult.noConfusion h
          · simp [if_neg hc, SyncResult.reportedAdded, SyncResult.reportedUpdated]

/-- Witness for C4: an injected commit failure on the empty batch leaves the
empty table unchanged and reports zero changes. -/
theorem sync_failure_is_atomic_witness :
    (sync_products_from_external [] [] true).1 = SyncResult.error "StorageError: commit failed" ∧
    ((sync_products_from_external [] [] true).2 = [] ∧
     (sync_products_from_external [] [] true).1.reportedAdded = 0 ∧
     (sync_products_from_external [] [] true).1.reportedUpdated = 0) :=
  ⟨rfl, sync_failure_is_atomic [] [] true "StorageError: commit failed" rfl⟩

/-- C5 (code bug): with limit 1 — inside the router's accepted range [1,100] —
and two active tasks in the registry, `get_sync_history` returns both entries;
the limit is only echoed inside the message string and never applied to the
returned lists. -/
theorem history_ignores_limit :
    (get_sync_history 1 { active := ["task-a", "task-b"], scheduled := [], reserved := [] }).entryCount = 2 ∧
    get_sync_history 1 { active := ["task-a", "task-b"], scheduled := [], reserved := [] } =
      { active_tasks := ["task-a", "task-b"]
        scheduled_tasks := []
        reserved_tasks := []
        message := "Retrieved task history (limit: 1)" } :=
  ⟨rfl, rfl⟩

/-- Counterexample to C6: querying an identifier absent from the result
backend does not fail — the service returns the "pending" payload and the
router passes it through with no 404. -/
theorem unknown_task_not_found_counterexample :
    get_sync_status [] "no-such-task" = StatusResult.pending "Task is waiting to be processed" ∧
    route_get_sync_status [] "no-such-task" =
      Except.ok (StatusResult.pending "Task is waiting to be processed") :=
  ⟨rfl, rfl⟩

/-- C6 as amended: for every identifier that belongs to no job in the
registry, the status query reports the "pending" state (Celery cannot
distinguish an unknown identifier from a task not yet started), and the router
returns it as a successful response rather than a NotFoundError. -/
theorem unknown_task_reports_pending (reg : List (String × CeleryState))
    (task_id : String) (h : reg.lookup task_id = none) :
    get_sync_status reg task_id = StatusResult.pending "Task is waiting to be processed" ∧
    route_get_sync_status reg task_id =
      Except.ok (StatusResult.pending "Task is waiting to be processed") := by
  unfold route_get_sync_status get_sync_status backendState
  rw [h]
  exact ⟨rfl, rfl⟩

/-- Witness for the amended C6 at an empty registry. -/
theorem unknown_task_reports_pending_witness :
    ([] : List (String × CeleryState)).lookup "missing-task" = none ∧
    (get_sync_status [] "missing-task" = StatusResult.pending "Task is waiting to be processed" ∧
     route_get_sync_status [] "missing-task" =
       Except.ok (StatusResult.pending "Task is waiting to be processed")) :=
  ⟨rfl, unknown_task_reports_pending [] "missing-task" rfl⟩

/-- Counterexample to C7: cancelling the already-succeeded task "t1" returns
the accepted payload (status "cancelled"), not an error-class rejection; the
registry is unchanged. -/
theorem cancel_succeeded_counterexample :
    (cancel_sync regSucceeded "t1").2.isError = false ∧
    (cancel_sync regSucceeded "t1").2 = CancelOutcome.accepted "t1" "Task cancellation requested" ∧
    (cancel_sync regSucceeded "t1").1 = regSucceeded :=
  ⟨rfl, rfl, rfl⟩

/-- C7 as amended: cancelling a job whose every registry entry under the given
identifier is in the terminal SUCCESS state returns the accepted
"cancellation requested" payload — the service performs no terminal-state
check and never rejects — and the revoke leaves the job's recorded state
unchanged. -/
theorem cancel_succeeded_task_accepted (reg : List (String × CeleryState))
    (task_id : String)
    (h : reg.all (fun e => e.1 != task_id || e.2.isSuccess) = true) :
    (cancel_sync reg task_id).2 = CancelOutcome.accepted task_id "Task cancellation requested" ∧
    (cancel_sync reg task_id).1 = reg := by
  refine ⟨rfl, ?_⟩
  unfold cancel_sync
  rw [List.all_eq_true] at h
  have hmap : reg.map (fun e => if e.1 == task_id then (e.1, revokeState e.2) else e)
      = reg.map id := by
    apply List.map_congr_left
    intro e he
    by_cases heq : e.1 == task_id
    · have hs := h e he
      simp only [bne, heq, Bool.not_true, Bool.false_or] at hs
      rw [if_pos heq]
      cases e with
      | mk k s =>
          cases s with
          | SUCCESS r => rfl
          | PENDING => exact absurd hs (by simp [CeleryState.isSuccess])
          | PROGRESS c t => exact absurd hs (by simp [CeleryState.isSuccess])
          | FAILURE msg => exact absurd hs (by simp [CeleryState.isSuccess])
          | REVOKED => exact absurd hs (by simp [CeleryState.isSuccess])
    · rw [if_neg heq]
      rfl
  rw [hmap, List.map_id]

/-- Witness for the amended C7 at the singleton succeeded registry. -/
theorem cancel_succeeded_task_accepted_witness :
    regSucceeded.all (fun e => e.1 != "t1" || e.2.isSuccess) = true ∧
    ((cancel_sync regSucceeded "t1").2 = CancelOutcome.accepted "t1" "Task cancellation requested" ∧
     (cancel_sync regSucceeded "t1").1 = regSucceeded) :=
  ⟨rfl, cancel_succeeded_task_accepted regSucceeded "t1" rfl⟩

/-- C8: for every provider key outside the static registry, `start_full_sync`
returns the error payload — whose message ends with the rendered list of valid
keys — and dispatches no task: no job record is created. -/
theorem unknown_provider_rejected_without_dispatch (task_id : String) (pt : String)
    (h : pt ∉ providerKeys) :
    get_provider (some pt) =
      Except.error ("Unknown provider type: " ++ pt ++ ". Available: " ++ availableKeysRepr) ∧
    start_full_sync task_id (some pt) =
      (TriggerResult.error_result
        ("Invalid provider type: " ++
          ("Unknown provider type: " ++ pt ++ ". Available: " ++ availableKeysRepr)), []) := by
  have hg : get_provider (some pt) =
      Except.error ("Unknown provider type: " ++ pt ++ ". Available: " ++ availableKeysRepr) := by
    unfold get_provider
    simp only [Option.getD_some]
    rw [if_neg h]
  refine ⟨hg, ?_⟩
  unfold start_full_sync
  rw [hg]

/-- Witness for C8 at the unknown key "fakestore". -/
theorem unknown_provider_rejected_without_dispatch_witness :
    "fakestore" ∉ providerKeys ∧
    (get_provider (some "fakestore") =
      Except.error ("Unknown provider type: " ++ "fakestore" ++ ". Available: " ++ availableKeysRepr) ∧
     start_full_sync "job-1" (some "fakestore") =
      (TriggerResult.error_result
        ("Invalid provider type: " ++
          ("Unknown provider type: " ++ "fakestore" ++ ". Available: " ++ availableKeysRepr)), [])) :=
  ⟨by decide, unknown_provider_rejected_without_dispatch "job-1" "fakestore" (by decide)⟩

/-- C10: any two trigger calls whose provider keys both resolve dispatch the
same single task invocation — `app.tasks.sync_products` with no arguments — so
the background execution cannot depend on the requested key; when the task
runs it resolves the provider with no argument, obtaining the configured
default from settings. -/
theorem dispatch_ignores_requested_key (tid1 tid2 : String) (k1 k2 : Option String)
    (h1 : resolvesProvider k1 = true) (h2 : resolvesProvider k2 = true) :
    (start_full_sync tid1 k1).2 = (start_full_sync tid2 k2).2 ∧
    (start_full_sync tid1 k1).2 = [{ name := "app.tasks.sync_products", args := [] }] ∧
    taskProviderResolution = Except.ok (Provider.dummyjson settings.external_api_url) := by
  have hd : ∀ (tid : String) (k : Option String), resolvesProvider k = true →
      (start_full_sync tid k).2 = [{ name := "app.tasks.sync_products", args := [] }] := by
    intro tid k hk
    unfold resolvesProvider at hk
    unfold start_full_sync
    cases hg : get_provider k with
    | error e => rw [hg] at hk; exact Bool.noConfusion hk
    | ok p => rfl
  refine ⟨?_, hd tid1 k1 h1, rfl⟩
  rw [hd tid1 k1 h1, hd tid2 k2 h2]

/-- Witness for C10: the explicit key "dummyjson" and the defaulted key (None)
both resolve and dispatch identical invocations. -/
theorem dispatch_ignores_requested_key_witness :
    resolvesProvider (some "dummyjson") = true ∧
    resolvesProvider none = true ∧
    ((start_full_sync "id-1" (some "dummyjson")).2 = (start_full_sync "id-2" none).2 ∧
     (start_full_sync "id-1" (some "dummyjson")).2 = [{ name := "app.tasks.sync_products", args := [] }] ∧
     taskProviderResolution = Except.ok (Provider.dummyjson settings.external_api_url)) :=
  ⟨rfl, rfl, dispatch_ignores_requested_key "id-1" "id-2" (some "dummyjson") none rfl rfl⟩

end ProductsAPI
